import Mathlib

/-!
Verification of the signaling core of a two-party WebRTC video-call
application (src/src/App.tsx; the variant src/unnamed/part_001 differs only
in ICE-server configuration, extra console logging and a microphone toggle,
its signaling logic is identical).

The Firestore document store is modelled as an association list of room
documents plus two append-only candidate collections.  The RTCPeerConnection
negotiation engine is modelled by exactly the state the application code
reads and writes (local description, currentRemoteDescription, the remote
candidates fed to it), instrumented with a call counter for
setRemoteDescription.  Asynchronous callbacks follow the cooperative model
of the host platform: each callback runs to completion before the next one
is processed, so a change handler is a plain state-transforming function.
-/

/-- An RTCSessionDescription: a type tag (offer or answer) plus sdp payload. -/
structure SessionDesc where
  sdpType : String
  sdp : String
deriving DecidableEq

/-- A Firestore room document: the fields the code reads and writes
(`data.offer`, `data.answer`), each possibly absent. -/
structure RoomDoc where
  offer : Option SessionDesc
  answer : Option SessionDesc
deriving DecidableEq

/-- An ICE candidate blob; opaque to the signaling layer. -/
abbrev Candidate := String

/-- The store: the `rooms` collection keyed by document id, and the
`offerCandidates` / `answerCandidates` subcollections (flattened here,
keyed by owning room id; records are appended at the tail). -/
structure Store where
  rooms : List (String × RoomDoc)
  offerCandidates : List (String × Candidate)
  answerCandidates : List (String × Candidate)
deriving DecidableEq

/-- The slice of RTCPeerConnection state that App.tsx touches, plus a call
counter for `setRemoteDescription` (the engine call count observed in the
idempotence property). -/
structure PC where
  localDesc : Option SessionDesc
  currentRemoteDescription : Option SessionDesc
  remoteCandidates : List Candidate
  setRemoteCalls : Nat
deriving DecidableEq

/-- React component state of App: the `roomId`, `inRoom`, `error` and
`status` useState cells. -/
structure AppState where
  roomId : String
  inRoom : Bool
  error : String
  status : String
deriving DecidableEq

/-- A session: the component state, the peer connection, and which handlers
and store subscriptions are currently installed. -/
structure Session where
  app : AppState
  pc : PC
  candidateSubActive : Bool
  localCandidateHandlerInstalled : Bool
  roomSubActive : Bool
deriving DecidableEq

def freshPC : PC :=
  { localDesc := none, currentRemoteDescription := none
    remoteCandidates := [], setRemoteCalls := 0 }

def emptyAppState : AppState :=
  { roomId := "", inRoom := false, error := "", status := "" }

def freshSession : Session :=
  { app := emptyAppState, pc := freshPC, candidateSubActive := false
    localCandidateHandlerInstalled := false, roomSubActive := false }

def emptyStore : Store :=
  { rooms := [], offerCandidates := [], answerCandidates := [] }

/-- `pc.setRemoteDescription(desc)`: records the description as
`currentRemoteDescription` and bumps the engine call counter. -/
def PC.setRemoteDescription (pc : PC) (d : SessionDesc) : PC :=
  { pc with currentRemoteDescription := some d
            setRemoteCalls := pc.setRemoteCalls + 1 }

/-- `pc.addIceCandidate(c)`: the default success behaviour of the engine,
appending the candidate to its remote-candidate set. -/
def PC.addIceCandidate (pc : PC) (c : Candidate) : PC :=
  { pc with remoteCandidates := pc.remoteCandidates ++ [c] }

/-- The two candidate subcollections of a room. -/
inductive CandColl
  | offerCands
  | answerCands
deriving DecidableEq

/-- Line 116: `addDoc(isCaller ? offerCandidates : answerCandidates, ...)` —
the collection a role appends its own candidates to. -/
def outboundCandidateTarget (isCaller : Bool) : CandColl :=
  if isCaller then CandColl.offerCands else CandColl.answerCands

/-- Line 102: `onSnapshot(isCaller ? answerCandidates : offerCandidates, ...)`
— the collection a role subscribes to for the peer's candidates. -/
def inboundCandidateSource (isCaller : Bool) : CandColl :=
  if isCaller then CandColl.answerCands else CandColl.offerCands

/-- The store operations the signaling code performs, as an observable
trace: document creation, whole-document set, field update, candidate
appends, the one-shot room read, and the three subscriptions. -/
inductive SigOp
  | createRoomDoc (roomId : String)
  | setRoomDoc (roomId : String) (d : RoomDoc)
  | updateAnswer (roomId : String) (a : SessionDesc)
  | appendOfferCand (roomId : String) (c : Candidate)
  | appendAnswerCand (roomId : String) (c : Candidate)
  | getRoomDoc (roomId : String)
  | subscribeRoomDoc (roomId : String)
  | subscribeOfferCands (roomId : String)
  | subscribeAnswerCands (roomId : String)
deriving DecidableEq

def subscribeCandOp (coll : CandColl) (r : String) : SigOp :=
  match coll with
  | CandColl.offerCands => SigOp.subscribeOfferCands r
  | CandColl.answerCands => SigOp.subscribeAnswerCands r

def appendCandOp (coll : CandColl) (r : String) (c : Candidate) : SigOp :=
  match coll with
  | CandColl.offerCands => SigOp.appendOfferCand r c
  | CandColl.answerCands => SigOp.appendAnswerCand r c

/-- First-match lookup in the rooms association list. -/
def lookupRoom : List (String × RoomDoc) → String → Option RoomDoc
  | [], _ => none
  | (k, v) :: rest, r => if k = r then some v else lookupRoom rest r

/-- `setDoc` semantics on the rooms list: replace the (first) binding for
the id wholesale, or insert it if absent (create-or-replace). -/
def setRoomAux : List (String × RoomDoc) → String → RoomDoc → List (String × RoomDoc)
  | [], r, d => [(r, d)]
  | (k, v) :: rest, r, d =>
      if k = r then (r, d) :: rest else (k, v) :: setRoomAux rest r d

/-- `updateDoc(roomRef, { answer })` semantics: merge the `answer` field
into the existing document, leaving all other fields intact.  (Firestore
requires the document to exist; the callee only calls this after a
successful `getDoc` of the same document.) -/
def updateAnswerAux : List (String × RoomDoc) → String → SessionDesc → List (String × RoomDoc)
  | [], _, _ => []
  | (k, v) :: rest, r, a =>
      if k = r then (k, { v with answer := some a }) :: rest
      else (k, v) :: updateAnswerAux rest r a

def Store.getRoom (s : Store) (r : String) : Option RoomDoc :=
  lookupRoom s.rooms r

/-- Effect of each signaling operation on the store; reads and
subscriptions do not change it. -/
def applyOp (op : SigOp) (s : Store) : Store :=
  match op with
  | SigOp.createRoomDoc r =>
      { s with rooms := setRoomAux s.rooms r { offer := none, answer := none } }
  | SigOp.setRoomDoc r d => { s with rooms := setRoomAux s.rooms r d }
  | SigOp.updateAnswer r a => { s with rooms := updateAnswerAux s.rooms r a }
  | SigOp.appendOfferCand r c =>
      { s with offerCandidates := s.offerCandidates ++ [(r, c)] }
  | SigOp.appendAnswerCand r c =>
      { s with answerCandidates := s.answerCandidates ++ [(r, c)] }
  | _ => s

/-- Status and error strings of the signaling paths, verbatim from App.tsx. -/
def roomNotFoundMsg : String := "Room not found. Please check the Room ID."

def offerMissingMsg : String := "No offer found in this room. Wait for the other user to create the room."

def connectedStatus : String := "Connected!"

def answerSentStatus : String := "Answer sent. Waiting for connection..."

/-- Classification of how the role-specific part of `setupSignaling` ended
for the callee: the two early-return failure branches (the
`RoomNotFoundError` and `OfferMissingError` of the specification) or the
successful answer publish. -/
inductive SignalingOutcome
  | roomNotFound
  | offerMissing
  | answerPublished
deriving DecidableEq

/-- Lines 142-149: the caller's `onSnapshot(roomRef, ...)` handler.
`data` is `snapshot.data()` (absent if the document does not exist); when
`data?.answer` is present and `pc.currentRemoteDescription` is not yet set,
the answer is applied as the remote description and the status becomes
`Connected!`; otherwise the notification is a no-op. -/
def answerSnapshotHandler (data : Option RoomDoc) (sess : Session) : Session :=
  match data with
  | none => sess
  | some d =>
    match d.answer with
    | none => sess
    | some a =>
      if sess.pc.currentRemoteDescription = none then
        { sess with pc := sess.pc.setRemoteDescription a
                    app := { sess.app with status := connectedStatus } }
      else sess

/-- A Firestore document change as delivered to a snapshot handler. -/
inductive ChangeType
  | added
  | modified
  | removed
deriving DecidableEq

def ChangeType.isAdded : ChangeType → Bool
  | ChangeType.added => true
  | _ => false

structure DocChange where
  ty : ChangeType
  data : Candidate
deriving DecidableEq

/-- Lines 102-110: the candidate-collection `onSnapshot` handler.  For each
change of type `added`, the record is fed to the engine via
`pc.addIceCandidate(...)`; a rejection is caught (`.catch`: logged only),
leaving the session unchanged, and the loop continues with the next record.
The engine call is abstracted as `applyCand`, which may fail per record. -/
def candidateChangeStep (applyCand : Candidate → PC → Except String PC)
    (acc : Session) (ch : DocChange) : Session :=
  if ch.ty.isAdded then
    match applyCand ch.data acc.pc with
    | Except.ok pc2 => { acc with pc := pc2 }
    | Except.error _ => acc
  else acc

def candidateSnapshotHandler (applyCand : Candidate → PC → Except String PC)
    (changes : List DocChange) (sess : Session) : Session :=
  changes.foldl (candidateChangeStep applyCand) sess

/-- Result of a caller-side flow: the store, the session, and the trace of
store operations performed. -/
structure CreateResult where
  store : Store
  sess : Session
  ops : List SigOp
deriving DecidableEq

/-- Result of a callee-side flow; `outcome` classifies which branch of the
role-specific part ran (`none` when no signaling was dispatched at all). -/
structure JoinResult where
  store : Store
  sess : Session
  ops : List SigOp
  outcome : Option SignalingOutcome
deriving DecidableEq

/-- Lines 95-149, caller branch of `setupSignaling(pc, roomId, true)`:
subscribe to `answerCandidates` (the inbound source for the caller),
install the local-candidate and track handlers, create the offer and set it
as local description, publish it with `setDoc(roomRef, { offer })` — a
whole-document replace — then subscribe to the room document for the
answer.  `offerDesc` is the engine's `createOffer()` result; `cands` are
the local candidates the engine discovers once gathering starts (each is
appended to `offerCandidates`, the caller's outbound target). -/
def callerSetupSignaling (r : String) (offerDesc : SessionDesc)
    (cands : List Candidate) (sess : Session) (s : Store) : CreateResult :=
  let sess1 : Session :=
    { sess with
      app := { sess.app with status := "Setting up signaling..." }
      candidateSubActive := true
      localCandidateHandlerInstalled := true }
  let offerDoc : RoomDoc := { offer := some offerDesc, answer := none }
  let s1 := applyOp (SigOp.setRoomDoc r offerDoc) s
  let s2 := cands.foldl
    (fun acc c => applyOp (appendCandOp (outboundCandidateTarget true) r c) acc) s1
  { store := s2
    sess :=
      { sess1 with
        pc := { sess1.pc with localDesc := some offerDesc }
        roomSubActive := true
        app := { sess1.app with status := "Waiting for answer..." } }
    ops := [subscribeCandOp (inboundCandidateSource true) r,
            SigOp.setRoomDoc r offerDoc,
            SigOp.subscribeRoomDoc r]
           ++ cands.map (appendCandOp (outboundCandidateTarget true) r) }

/-- Lines 21-40, `createRoom`: clear the error, create a fresh peer
connection, acquire media (modelled as succeeding; a capture failure aborts
before any store write), allocate an empty room document via
`addDoc(collection(db, 'rooms'), {})` — `newId` is the generator-assigned
fresh id — set `roomId` and `inRoom`, then run the caller side of
`setupSignaling`. -/
def createRoom (newId : String) (offerDesc : SessionDesc)
    (cands : List Candidate) (sess : Session) (s : Store) : CreateResult :=
  let sess1 : Session :=
    { sess with
      app := { sess.app with error := "", status := "Creating room..." }
      pc := freshPC
      candidateSubActive := false
      localCandidateHandlerInstalled := false
      roomSubActive := false }
  let s1 := applyOp (SigOp.createRoomDoc newId) s
  let sess2 : Session :=
    { sess1 with
      app := { sess1.app with
               roomId := newId
               inRoom := true
               status := "Room created. Waiting for other user to join..." } }
  let res := callerSetupSignaling newId offerDesc cands sess2 s1
  { res with ops := SigOp.createRoomDoc newId :: res.ops }

/-- Lines 95-132 and 150-172, callee branch of `setupSignaling(pc, roomId,
false)`: subscribe to `offerCandidates` (the inbound source for the
callee), install the local-candidate and track handlers, fetch the room
document once with `getDoc`.  If the document is absent, set the
room-not-found error, clear the status and return (store untouched); if it
has no `offer` field, set the no-offer error likewise.  Otherwise apply the
offer as remote description, create the answer (`answerDesc` is the
engine's `createAnswer()` result), set it as local description, and publish
it with `updateDoc(roomRef, { answer })` — a field merge.  `cands` are the
local candidates discovered after gathering starts, appended to
`answerCandidates`, the callee's outbound target. -/
def calleeSetupSignaling (r : String) (answerDesc : SessionDesc)
    (cands : List Candidate) (sess : Session) (s : Store) : JoinResult :=
  let sess1 : Session :=
    { sess with
      app := { sess.app with status := "Setting up signaling..." }
      candidateSubActive := true
      localCandidateHandlerInstalled := true }
  let sess2 : Session :=
    { sess1 with app := { sess1.app with status := "Fetching room info..." } }
  let ops0 : List SigOp :=
    [subscribeCandOp (inboundCandidateSource false) r, SigOp.getRoomDoc r]
  match s.getRoom r with
  | none =>
      { store := s
        sess := { sess2 with
                  app := { sess2.app with error := roomNotFoundMsg, status := "" } }
        ops := ops0
        outcome := some SignalingOutcome.roomNotFound }
  | some d =>
    match d.offer with
    | none =>
        { store := s
          sess := { sess2 with
                    app := { sess2.app with error := offerMissingMsg, status := "" } }
          ops := ops0
          outcome := some SignalingOutcome.offerMissing }
    | some o =>
        let pc1 := (sess2.pc.setRemoteDescription o)
        let pc2 := { pc1 with localDesc := some answerDesc }
        let s1 := applyOp (SigOp.updateAnswer r answerDesc) s
        let s2 := cands.foldl
          (fun acc c => applyOp (appendCandOp (outboundCandidateTarget false) r c) acc) s1
        { store := s2
          sess := { sess2 with
                    pc := pc2
                    app := { sess2.app with status := answerSentStatus } }
          ops := ops0 ++ SigOp.updateAnswer r answerDesc ::
                 cands.map (appendCandOp (outboundCandidateTarget false) r)
          outcome := some SignalingOutcome.answerPublished }

/-- Lines 42-60, `joinRoom`: clear the error, create a fresh peer
connection, acquire media (modelled as succeeding), set `inRoom := true`,
run the callee side of `setupSignaling` with the `roomId` component state,
then set the joined status (the failure branches of `setupSignaling` return
normally, so this final status write runs in every non-throwing case). -/
def joinRoom (answerDesc : SessionDesc) (cands : List Candidate)
    (sess : Session) (s : Store) : JoinResult :=
  let sess1 : Session :=
    { sess with
      app := { sess.app with error := "", status := "Joining room..." }
      pc := freshPC
      candidateSubActive := false
      localCandidateHandlerInstalled := false
      roomSubActive := false }
  let sess2 : Session := { sess1 with app := { sess1.app with inRoom := true } }
  let res := calleeSetupSignaling sess.app.roomId answerDesc cands sess2 s
  { res with
    sess := { res.sess with
              app := { res.sess.app with status := "Joined room. Connecting..." } } }

/-- Line 190: the Join Room button carries `disabled={!roomId}`, so the
join action cannot be dispatched while the identifier field is empty. -/
def joinDisabled (roomId : String) : Bool := roomId = ""

/-- The user-level join attempt: when the button is disabled (empty
`roomId`) nothing runs at all — no store operation, no state change —
otherwise `joinRoom` runs. -/
def attemptJoin (answerDesc : SessionDesc) (cands : List Candidate)
    (sess : Session) (s : Store) : JoinResult :=
  if joinDisabled sess.app.roomId then
    { store := s, sess := sess, ops := [], outcome := none }
  else joinRoom answerDesc cands sess s

/-! Helper lemmas. -/

theorem lookupRoom_setRoomAux_self (l : List (String × RoomDoc)) (r : String)
    (d : RoomDoc) : lookupRoom (setRoomAux l r d) r = some d := by
  induction l with
  | nil => simp [setRoomAux, lookupRoom]
  | cons p rest ih =>
    obtain ⟨k, v⟩ := p
    by_cases hk : k = r
    · simp [setRoomAux, lookupRoom, hk]
    · simp [setRoomAux, lookupRoom, hk, ih]

theorem rooms_applyOp_appendCand (coll : CandColl) (r : String) (c : Candidate)
    (s : Store) : (applyOp (appendCandOp coll r c) s).rooms = s.rooms := by
  cases coll <;> rfl

theorem rooms_appendCand_foldl (coll : CandColl) (r : String)
    (cands : List Candidate) (s : Store) :
    (cands.foldl (fun acc c => applyOp (appendCandOp coll r c) acc) s).rooms
      = s.rooms := by
  induction cands generalizing s with
  | nil => rfl
  | cons c rest ih =>
    rw [List.foldl_cons, ih, rooms_applyOp_appendCand]

/-- C1: delivering the Room-document change notification carrying the same
answer twice or more to the caller's `onSnapshot(roomRef)` handler applies
the remote description to the engine exactly once: the first delivery bumps
the engine's `setRemoteDescription` call count by one, and every later
delivery of the same notification is a no-op (the guard
`data?.answer && !pc.currentRemoteDescription` fails once the description
is set). -/
theorem caller_answer_applied_exactly_once (sess : Session) (d : RoomDoc)
    (a : SessionDesc) (h0 : sess.pc.currentRemoteDescription = none)
    (ha : d.answer = some a) (n : Nat) :
    (answerSnapshotHandler (some d))^[n + 1] sess
      = answerSnapshotHandler (some d) sess ∧
    (answerSnapshotHandler (some d) sess).pc.setRemoteCalls
      = sess.pc.setRemoteCalls + 1 := by
  have hstep : answerSnapshotHandler (some d) sess =
      { sess with pc := sess.pc.setRemoteDescription a
                  app := { sess.app with status := connectedStatus } } := by
    simp [answerSnapshotHandler, ha, h0]
  have hfix : answerSnapshotHandler (some d) (answerSnapshotHandler (some d) sess)
      = answerSnapshotHandler (some d) sess := by
    rw [hstep]
    simp [answerSnapshotHandler, ha, PC.setRemoteDescription]
  refine ⟨?_, ?_⟩
  · rw [Function.iterate_succ_apply]
    exact Function.iterate_fixed hfix n
  · rw [hstep]
    simp [PC.setRemoteDescription]

def sampleAnswer : SessionDesc := { sdpType := "answer", sdp := "sdp-a" }

def sampleOffer : SessionDesc := { sdpType := "offer", sdp := "sdp-o" }

theorem caller_answer_applied_exactly_once_witness :
    (answerSnapshotHandler (some { offer := some sampleOffer, answer := some sampleAnswer }))^[2]
        freshSession
      = answerSnapshotHandler
          (some { offer := some sampleOffer, answer := some sampleAnswer }) freshSession ∧
    (answerSnapshotHandler (some { offer := some sampleOffer, answer := some sampleAnswer })
        freshSession).pc.setRemoteCalls
      = freshSession.pc.setRemoteCalls + 1 :=
  caller_answer_applied_exactly_once freshSession
    { offer := some sampleOffer, answer := some sampleAnswer } sampleAnswer rfl rfl 1

/-- C3: after a successful `createRoom`, the Room document exists in the
store with its `offer` field set (to the engine's offer) and its `answer`
field absent, and it stays that way through everything else the caller
writes in the session (the candidate appends never touch the rooms
collection) — the `answer` field can only become present through a callee's
`updateDoc`. -/
theorem caller_create_offer_set_answer_absent (newId : String)
    (offerDesc : SessionDesc) (cands : List Candidate) (sess : Session)
    (s : Store) (hfresh : s.getRoom newId = none) :
    (createRoom newId offerDesc cands sess s).store.getRoom newId
      = some { offer := some offerDesc, answer := none } := by
  simp only [createRoom, callerSetupSignaling, Store.getRoom]
  rw [rooms_appendCand_foldl]
  simp [applyOp, lookupRoom_setRoomAux_self]

theorem caller_create_offer_set_answer_absent_witness :
    (emptyStore.getRoom "R1" = none) ∧
    (createRoom "R1" sampleOffer ["cand1"] freshSession emptyStore).store.getRoom "R1"
      = some { offer := some sampleOffer, answer := none } :=
  ⟨rfl, caller_create_offer_set_answer_absent "R1" sampleOffer ["cand1"]
    freshSession emptyStore rfl⟩

/-- C2: the callee's `setupSignaling` fails with the room-not-found error
when no Room document exists for `rid`, and with the offer-missing error
when the document exists but its `offer` field is absent; in both failure
branches the function returns early and the store — Room documents and both
candidate collections — is exactly the input store, with no partial
mutation. -/
theorem callee_join_failure_taxonomy (rid : String) (answerDesc : SessionDesc)
    (cands : List Candidate) (sess : Session) (s : Store) :
    (s.getRoom rid = none →
      (calleeSetupSignaling rid answerDesc cands sess s).outcome
          = some SignalingOutcome.roomNotFound ∧
      (calleeSetupSignaling rid answerDesc cands sess s).store = s ∧
      (calleeSetupSignaling rid answerDesc cands sess s).sess.app.error
          = roomNotFoundMsg) ∧
    (∀ d : RoomDoc, s.getRoom rid = some d → d.offer = none →
      (calleeSetupSignaling rid answerDesc cands sess s).outcome
          = some SignalingOutcome.offerMissing ∧
      (calleeSetupSignaling rid answerDesc cands sess s).store = s ∧
      (calleeSetupSignaling rid answerDesc cands sess s).sess.app.error
          = offerMissingMsg) := by
  refine ⟨fun hnone => ?_, fun d hd hoff => ?_⟩
  · simp [calleeSetupSignaling, hnone]
  · simp [calleeSetupSignaling, hd, hoff]

def emptyRoomDoc : RoomDoc := { offer := none, answer := none }

def storeWithEmptyRoom : Store :=
  { rooms := [("R2", emptyRoomDoc)], offerCandidates := [], answerCandidates := [] }

theorem callee_join_failure_taxonomy_witness :
    ((calleeSetupSignaling "missing" sampleAnswer [] freshSession emptyStore).outcome
        = some SignalingOutcome.roomNotFound ∧
     (calleeSetupSignaling "missing" sampleAnswer [] freshSession emptyStore).store
        = emptyStore ∧
     (calleeSetupSignaling "missing" sampleAnswer [] freshSession emptyStore).sess.app.error
        = roomNotFoundMsg) ∧
    ((calleeSetupSignaling "R2" sampleAnswer [] freshSession storeWithEmptyRoom).outcome
        = some SignalingOutcome.offerMissing ∧
     (calleeSetupSignaling "R2" sampleAnswer [] freshSession storeWithEmptyRoom).store
        = storeWithEmptyRoom ∧
     (calleeSetupSignaling "R2" sampleAnswer [] freshSession storeWithEmptyRoom).sess.app.error
        = offerMissingMsg) :=
  ⟨(callee_join_failure_taxonomy "missing" sampleAnswer [] freshSession emptyStore).1 rfl,
   (callee_join_failure_taxonomy "R2" sampleAnswer [] freshSession storeWithEmptyRoom).2
     emptyRoomDoc (by decide) rfl⟩

/-- C5: the join action is guarded on a non-empty room identifier (the Join
Room button is disabled while the field is empty), so a join attempted with
the empty-string identifier is rejected before anything runs: no store
operation at all is performed (in particular no store read), the store and
session are untouched, and the outcome is not the room-not-found failure —
it is a precondition rejection, with no signaling outcome at all. -/
theorem empty_room_id_rejected_before_read (answerDesc : SessionDesc)
    (cands : List Candidate) (sess : Session) (s : Store)
    (hempty : sess.app.roomId = "") :
    attemptJoin answerDesc cands sess s
      = { store := s, sess := sess, ops := [], outcome := none } ∧
    (attemptJoin answerDesc cands sess s).ops = [] ∧
    (attemptJoin answerDesc cands sess s).outcome
      ≠ some SignalingOutcome.roomNotFound := by
  refine ⟨?_, ?_, ?_⟩ <;> simp [attemptJoin, joinDisabled, hempty]

theorem empty_room_id_rejected_before_read_witness :
    attemptJoin sampleAnswer [] freshSession storeWithEmptyRoom
      = { store := storeWithEmptyRoom, sess := freshSession, ops := [], outcome := none } ∧
    (attemptJoin sampleAnswer [] freshSession storeWithEmptyRoom).ops = [] ∧
    (attemptJoin sampleAnswer [] freshSession storeWithEmptyRoom).outcome
      ≠ some SignalingOutcome.roomNotFound :=
  empty_room_id_rejected_before_read sampleAnswer [] freshSession storeWithEmptyRoom rfl

theorem lookupRoom_updateAnswerAux (l : List (String × RoomDoc)) (r : String)
    (a : SessionDesc) :
    lookupRoom (updateAnswerAux l r a) r
      = (lookupRoom l r).map (fun d => { d with answer := some a }) := by
  induction l with
  | nil => simp [updateAnswerAux, lookupRoom]
  | cons p rest ih =>
    obtain ⟨k, v⟩ := p
    by_cases hk : k = r
    · simp [updateAnswerAux, lookupRoom, hk]
    · simp [updateAnswerAux, lookupRoom, hk, ih]

/-- C9: the caller's offer publish is `setDoc`, a whole-document replace —
after it, the Room document is exactly the one-field offer document, so any
other field previously present (in particular an `answer`) is erased — and
it is the very store operation the caller trace performs; the callee's
answer publish is `updateDoc`, a field merge that leaves the existing
`offer` (and everything else but `answer`) unchanged. -/
theorem offer_publish_replaces_answer_publish_merges (r : String)
    (offerDesc a : SessionDesc) (d : RoomDoc) (s : Store) (sess : Session)
    (cands : List Candidate) (hroom : s.getRoom r = some d) :
    ((applyOp (SigOp.setRoomDoc r { offer := some offerDesc, answer := none }) s).getRoom r
        = some { offer := some offerDesc, answer := none }) ∧
    ((applyOp (SigOp.updateAnswer r a) s).getRoom r
        = some { d with answer := some a }) ∧
    SigOp.setRoomDoc r { offer := some offerDesc, answer := none }
        ∈ (callerSetupSignaling r offerDesc cands sess s).ops := by
  refine ⟨?_, ?_, ?_⟩
  · simp [applyOp, Store.getRoom, lookupRoom_setRoomAux_self]
  · simp only [applyOp, Store.getRoom, lookupRoom_updateAnswerAux]
    rw [Store.getRoom] at hroom
    simp [hroom]
  · simp [callerSetupSignaling]

def storeWithAnswerOnly : Store :=
  { rooms := [("R3", { offer := none, answer := some sampleAnswer })]
    offerCandidates := [], answerCandidates := [] }

theorem offer_publish_replaces_answer_publish_merges_witness :
    ((applyOp (SigOp.setRoomDoc "R3" { offer := some sampleOffer, answer := none })
        storeWithAnswerOnly).getRoom "R3"
        = some { offer := some sampleOffer, answer := none }) ∧
    ((applyOp (SigOp.updateAnswer "R3" sampleAnswer) storeWithAnswerOnly).getRoom "R3"
        = some { offer := none, answer := some sampleAnswer }) ∧
    SigOp.setRoomDoc "R3" { offer := some sampleOffer, answer := none }
        ∈ (callerSetupSignaling "R3" sampleOffer [] freshSession storeWithAnswerOnly).ops :=
  offer_publish_replaces_answer_publish_merges "R3" sampleOffer sampleAnswer
    { offer := none, answer := some sampleAnswer } storeWithAnswerOnly freshSession []
    (by decide)

/-- C10: when a callee join fails with room-not-found or offer-missing, the
session is not rolled back to idle: `joinRoom` set the in-room flag before
signaling ran and the flag remains true in the result, the candidate
subscription and the local-candidate handler installed earlier in
`setupSignaling` remain active, the store is untouched, and the error cell
holds the failure message; within `setupSignaling` the failure branch only
resets the status string to empty and sets the error string. -/
theorem join_failure_no_rollback (answerDesc : SessionDesc)
    (cands : List Candidate) (sess : Session) (s : Store)
    (hfail : s.getRoom sess.app.roomId = none ∨
      ∃ d : RoomDoc, s.getRoom sess.app.roomId = some d ∧ d.offer = none) :
    ((joinRoom answerDesc cands sess s).sess.app.inRoom = true) ∧
    ((joinRoom answerDesc cands sess s).sess.candidateSubActive = true) ∧
    ((joinRoom answerDesc cands sess s).sess.localCandidateHandlerInstalled = true) ∧
    ((joinRoom answerDesc cands sess s).store = s) ∧
    ((joinRoom answerDesc cands sess s).sess.app.error = roomNotFoundMsg ∨
     (joinRoom answerDesc cands sess s).sess.app.error = offerMissingMsg) ∧
    (∀ sess2 : Session,
      (calleeSetupSignaling sess.app.roomId answerDesc cands sess2 s).sess.app.status = "" ∧
      (calleeSetupSignaling sess.app.roomId answerDesc cands sess2 s).sess.app.error ≠ "") := by
  rcases hfail with hnone | ⟨d, hd, hoff⟩
  · refine ⟨?_, ?_, ?_, ?_, Or.inl ?_, fun sess2 => ⟨?_, ?_⟩⟩ <;>
      simp [joinRoom, calleeSetupSignaling, hnone, roomNotFoundMsg]
  · refine ⟨?_, ?_, ?_, ?_, Or.inr ?_, fun sess2 => ⟨?_, ?_⟩⟩ <;>
      simp [joinRoom, calleeSetupSignaling, hd, hoff, offerMissingMsg]

def sessionInRoomR2 : Session :=
  { freshSession with app := { emptyAppState with roomId := "R2" } }

theorem join_failure_no_rollback_witness :
    ((joinRoom sampleAnswer [] sessionInRoomR2 storeWithEmptyRoom).sess.app.inRoom = true) ∧
    ((joinRoom sampleAnswer [] sessionInRoomR2 storeWithEmptyRoom).sess.candidateSubActive = true) ∧
    ((joinRoom sampleAnswer [] sessionInRoomR2 storeWithEmptyRoom).sess.localCandidateHandlerInstalled = true) ∧
    ((joinRoom sampleAnswer [] sessionInRoomR2 storeWithEmptyRoom).store = storeWithEmptyRoom) ∧
    ((joinRoom sampleAnswer [] sessionInRoomR2 storeWithEmptyRoom).sess.app.error = roomNotFoundMsg ∨
     (joinRoom sampleAnswer [] sessionInRoomR2 storeWithEmptyRoom).sess.app.error = offerMissingMsg) ∧
    (∀ sess2 : Session,
      (calleeSetupSignaling sessionInRoomR2.app.roomId sampleAnswer [] sess2 storeWithEmptyRoom).sess.app.status = "" ∧
      (calleeSetupSignaling sessionInRoomR2.app.roomId sampleAnswer [] sess2 storeWithEmptyRoom).sess.app.error ≠ "") :=
  join_failure_no_rollback sampleAnswer [] sessionInRoomR2 storeWithEmptyRoom
    (Or.inr ⟨emptyRoomDoc, by decide, rfl⟩)

/-! Trace predicates and further helper lemmas. -/

def writesOfferField : SigOp → Bool
  | SigOp.setRoomDoc _ d => d.offer.isSome
  | _ => false

def writesAnswerField : SigOp → Bool
  | SigOp.setRoomDoc _ d => d.answer.isSome
  | SigOp.updateAnswer _ _ => true
  | _ => false

def isAppendOfferCandOp : SigOp → Bool
  | SigOp.appendOfferCand _ _ => true
  | _ => false

def isAppendAnswerCandOp : SigOp → Bool
  | SigOp.appendAnswerCand _ _ => true
  | _ => false

def isGetRoomDocOp : SigOp → Bool
  | SigOp.getRoomDoc _ => true
  | _ => false

def isSubscribeRoomDocOp : SigOp → Bool
  | SigOp.subscribeRoomDoc _ => true
  | _ => false

theorem applyOp_candidates_append_only (op : SigOp) (st : Store) :
    (∃ t, (applyOp op st).offerCandidates = st.offerCandidates ++ t) ∧
    (∃ t, (applyOp op st).answerCandidates = st.answerCandidates ++ t) := by
  have hnil : ∀ l : List (String × Candidate), l = l ++ [] :=
    fun l => (List.append_nil l).symm
  cases op with
  | appendOfferCand r c => exact ⟨⟨[(r, c)], rfl⟩, ⟨[], hnil _⟩⟩
  | appendAnswerCand r c => exact ⟨⟨[], hnil _⟩, ⟨[(r, c)], rfl⟩⟩
  | createRoomDoc r => exact ⟨⟨[], hnil _⟩, ⟨[], hnil _⟩⟩
  | setRoomDoc r d => exact ⟨⟨[], hnil _⟩, ⟨[], hnil _⟩⟩
  | updateAnswer r a => exact ⟨⟨[], hnil _⟩, ⟨[], hnil _⟩⟩
  | getRoomDoc r => exact ⟨⟨[], hnil _⟩, ⟨[], hnil _⟩⟩
  | subscribeRoomDoc r => exact ⟨⟨[], hnil _⟩, ⟨[], hnil _⟩⟩
  | subscribeOfferCands r => exact ⟨⟨[], hnil _⟩, ⟨[], hnil _⟩⟩
  | subscribeAnswerCands r => exact ⟨⟨[], hnil _⟩, ⟨[], hnil _⟩⟩

theorem candidateChangeStep_fields (f : Candidate → PC → Except String PC)
    (sess : Session) (ch : DocChange) :
    (candidateChangeStep f sess ch).app = sess.app ∧
    (candidateChangeStep f sess ch).candidateSubActive = sess.candidateSubActive := by
  unfold candidateChangeStep
  split
  · split <;> exact ⟨rfl, rfl⟩
  · exact ⟨rfl, rfl⟩

theorem candidateSnapshotHandler_fields (f : Candidate → PC → Except String PC)
    (changes : List DocChange) (sess : Session) :
    (candidateSnapshotHandler f changes sess).app = sess.app ∧
    (candidateSnapshotHandler f changes sess).candidateSubActive
      = sess.candidateSubActive := by
  induction changes generalizing sess with
  | nil => exact ⟨rfl, rfl⟩
  | cons ch rest ih =>
    have hstep := candidateChangeStep_fields f sess ch
    have hrest := ih (candidateChangeStep f sess ch)
    refine ⟨?_, ?_⟩
    · calc (candidateSnapshotHandler f (ch :: rest) sess).app
          = (candidateSnapshotHandler f rest (candidateChangeStep f sess ch)).app := rfl
        _ = (candidateChangeStep f sess ch).app := hrest.1
        _ = sess.app := hstep.1
    · calc (candidateSnapshotHandler f (ch :: rest) sess).candidateSubActive
          = (candidateSnapshotHandler f rest
              (candidateChangeStep f sess ch)).candidateSubActive := rfl
        _ = (candidateChangeStep f sess ch).candidateSubActive := hrest.2
        _ = sess.candidateSubActive := hstep.2

theorem candidate_filter_only_added (f : Candidate → PC → Except String PC)
    (changes : List DocChange) (sess : Session) :
    candidateSnapshotHandler f changes sess
      = candidateSnapshotHandler f
          (changes.filter fun ch => ch.ty.isAdded) sess := by
  induction changes generalizing sess with
  | nil => rfl
  | cons ch rest ih =>
    by_cases hadd : ch.ty.isAdded = true
    · have hf : List.filter (fun c => c.ty.isAdded) (ch :: rest)
          = ch :: List.filter (fun c => c.ty.isAdded) rest := by
        simp [List.filter_cons, hadd]
      rw [hf]
      exact ih (candidateChangeStep f sess ch)
    · have hf : List.filter (fun c => c.ty.isAdded) (ch :: rest)
          = List.filter (fun c => c.ty.isAdded) rest := by
        simp [List.filter_cons, hadd]
      rw [hf]
      have hstep : candidateChangeStep f sess ch = sess := by
        simp [candidateChangeStep, hadd]
      calc candidateSnapshotHandler f (ch :: rest) sess
          = candidateSnapshotHandler f rest (candidateChangeStep f sess ch) := rfl
        _ = candidateSnapshotHandler f rest sess := by rw [hstep]
        _ = candidateSnapshotHandler f (rest.filter fun c => c.ty.isAdded) sess := ih sess

/-- C4: role exclusivity over the traces of store operations a session
performs.  The callee trace contains no write of the `offer` field and the
caller trace no write of the `answer` field; the caller trace writes the
`offer` field exactly once and the callee trace writes the `answer` field
at most once; and every operation either trace can perform only ever
extends the candidate collections at the tail — candidate records are
append-only, never mutated or deleted. -/
theorem role_exclusivity_single_writer (newId rid : String)
    (offerDesc answerDesc : SessionDesc) (ccs dcs : List Candidate)
    (sessC sessD : Session) (s s2 : Store) :
    ((createRoom newId offerDesc ccs sessC s).ops.countP writesOfferField = 1) ∧
    ((createRoom newId offerDesc ccs sessC s).ops.countP writesAnswerField = 0) ∧
    ((calleeSetupSignaling rid answerDesc dcs sessD s2).ops.countP writesOfferField = 0) ∧
    ((calleeSetupSignaling rid answerDesc dcs sessD s2).ops.countP writesAnswerField ≤ 1) ∧
    (∀ op ∈ (createRoom newId offerDesc ccs sessC s).ops
            ++ (calleeSetupSignaling rid answerDesc dcs sessD s2).ops,
      ∀ st : Store,
        (∃ t, (applyOp op st).offerCandidates = st.offerCandidates ++ t) ∧
        (∃ t, (applyOp op st).answerCandidates = st.answerCandidates ++ t)) := by
  refine ⟨?_, ?_, ?_, ?_, fun op _ st => applyOp_candidates_append_only op st⟩
  · simp [createRoom, callerSetupSignaling, subscribeCandOp, inboundCandidateSource,
      outboundCandidateTarget, appendCandOp, writesOfferField, List.countP_cons,
      Function.comp]
  · simp [createRoom, callerSetupSignaling, subscribeCandOp, inboundCandidateSource,
      outboundCandidateTarget, appendCandOp, writesAnswerField, List.countP_cons,
      Function.comp]
  · rcases hsr : s2.getRoom rid with _ | d
    · simp [calleeSetupSignaling, hsr, subscribeCandOp, inboundCandidateSource,
        writesOfferField, List.countP_cons]
    · rcases hoff : d.offer with _ | o
      · simp [calleeSetupSignaling, hsr, hoff, subscribeCandOp, inboundCandidateSource,
          writesOfferField, List.countP_cons]
      · simp [calleeSetupSignaling, hsr, hoff, subscribeCandOp, inboundCandidateSource,
          outboundCandidateTarget, appendCandOp, writesOfferField, List.countP_cons,
          Function.comp]
  · rcases hsr : s2.getRoom rid with _ | d
    · simp [calleeSetupSignaling, hsr, subscribeCandOp, inboundCandidateSource,
        writesAnswerField, List.countP_cons]
    · rcases hoff : d.offer with _ | o
      · simp [calleeSetupSignaling, hsr, hoff, subscribeCandOp, inboundCandidateSource,
          writesAnswerField, List.countP_cons]
      · simp [calleeSetupSignaling, hsr, hoff, subscribeCandOp, inboundCandidateSource,
          outboundCandidateTarget, appendCandOp, writesAnswerField, List.countP_cons,
          Function.comp]

theorem role_exclusivity_single_writer_witness :
    ((createRoom "R1" sampleOffer ["c1"] freshSession emptyStore).ops.countP
        writesOfferField = 1) ∧
    ((createRoom "R1" sampleOffer ["c1"] freshSession emptyStore).ops.countP
        writesAnswerField = 0) ∧
    ((calleeSetupSignaling "R2" sampleAnswer ["c2"] freshSession storeWithEmptyRoom).ops.countP
        writesOfferField = 0) ∧
    ((calleeSetupSignaling "R2" sampleAnswer ["c2"] freshSession storeWithEmptyRoom).ops.countP
        writesAnswerField ≤ 1) ∧
    ((∃ t, (applyOp (SigOp.createRoomDoc "R1") emptyStore).offerCandidates
        = emptyStore.offerCandidates ++ t) ∧
     (∃ t, (applyOp (SigOp.createRoomDoc "R1") emptyStore).answerCandidates
        = emptyStore.answerCandidates ++ t)) := by
  have h := role_exclusivity_single_writer "R1" "R2" sampleOffer sampleAnswer
    ["c1"] ["c2"] freshSession freshSession emptyStore storeWithEmptyRoom
  exact ⟨h.1, h.2.1, h.2.2.1, h.2.2.2.1,
    h.2.2.2.2 (SigOp.createRoomDoc "R1")
      (by simp [createRoom, callerSetupSignaling]) emptyStore⟩

/-- C6: the candidate relay routes by role.  Outbound: the caller appends
its locally discovered candidates to `offerCandidates`, the callee to
`answerCandidates` (each candidate in the session produces exactly one
append to the role's own collection and none to the other); inbound: the
caller subscribes to `answerCandidates` and the callee to
`offerCandidates`; and the subscription handler feeds only newly-`added`
records to the engine — processing a batch is the same as processing just
its `added` changes. -/
theorem candidate_relay_routing (f : Candidate → PC → Except String PC)
    (changes : List DocChange) (sess sessC sessD : Session) (newId rid : String)
    (offerDesc answerDesc : SessionDesc) (ccs dcs : List Candidate)
    (s s2 : Store) :
    outboundCandidateTarget true = CandColl.offerCands ∧
    outboundCandidateTarget false = CandColl.answerCands ∧
    inboundCandidateSource true = CandColl.answerCands ∧
    inboundCandidateSource false = CandColl.offerCands ∧
    (createRoom newId offerDesc ccs sessC s).ops.countP isAppendOfferCandOp
      = ccs.length ∧
    (createRoom newId offerDesc ccs sessC s).ops.countP isAppendAnswerCandOp = 0 ∧
    (calleeSetupSignaling rid answerDesc dcs sessD s2).ops.countP
      isAppendOfferCandOp = 0 ∧
    SigOp.subscribeAnswerCands newId ∈ (createRoom newId offerDesc ccs sessC s).ops ∧
    SigOp.subscribeOfferCands rid
      ∈ (calleeSetupSignaling rid answerDesc dcs sessD s2).ops ∧
    (∀ (d : RoomDoc) (od : SessionDesc), s2.getRoom rid = some d → d.offer = some od →
      (calleeSetupSignaling rid answerDesc dcs sessD s2).ops.countP
        isAppendAnswerCandOp = dcs.length) ∧
    candidateSnapshotHandler f changes sess
      = candidateSnapshotHandler f (changes.filter fun ch => ch.ty.isAdded) sess := by
  refine ⟨rfl, rfl, rfl, rfl, ?_, ?_, ?_, ?_, ?_, ?_,
    candidate_filter_only_added f changes sess⟩
  · simp [createRoom, callerSetupSignaling, subscribeCandOp, inboundCandidateSource,
      outboundCandidateTarget, appendCandOp, isAppendOfferCandOp, List.countP_cons,
      Function.comp]
  · simp [createRoom, callerSetupSignaling, subscribeCandOp, inboundCandidateSource,
      outboundCandidateTarget, appendCandOp, isAppendAnswerCandOp, List.countP_cons,
      Function.comp]
  · rcases hsr : s2.getRoom rid with _ | d
    · simp [calleeSetupSignaling, hsr, subscribeCandOp, inboundCandidateSource,
        isAppendOfferCandOp, List.countP_cons]
    · rcases hoff : d.offer with _ | o
      · simp [calleeSetupSignaling, hsr, hoff, subscribeCandOp, inboundCandidateSource,
          isAppendOfferCandOp, List.countP_cons]
      · simp [calleeSetupSignaling, hsr, hoff, subscribeCandOp, inboundCandidateSource,
          outboundCandidateTarget, appendCandOp, isAppendOfferCandOp, List.countP_cons,
          Function.comp]
  · simp [createRoom, callerSetupSignaling, subscribeCandOp, inboundCandidateSource]
  · rcases hsr : s2.getRoom rid with _ | d
    · simp [calleeSetupSignaling, hsr, subscribeCandOp, inboundCandidateSource]
    · rcases hoff : d.offer with _ | o
      · simp [calleeSetupSignaling, hsr, hoff, subscribeCandOp, inboundCandidateSource]
      · simp [calleeSetupSignaling, hsr, hoff, subscribeCandOp, inboundCandidateSource]
  · intro d od hd hoff
    simp [calleeSetupSignaling, hd, hoff, subscribeCandOp, inboundCandidateSource,
      outboundCandidateTarget, appendCandOp, isAppendAnswerCandOp, List.countP_cons,
      Function.comp]

def storeWithOfferRoom : Store :=
  { rooms := [("R1", { offer := some sampleOffer, answer := none })]
    offerCandidates := [], answerCandidates := [] }

theorem candidate_relay_routing_witness :
    outboundCandidateTarget true = CandColl.offerCands ∧
    outboundCandidateTarget false = CandColl.answerCands ∧
    inboundCandidateSource true = CandColl.answerCands ∧
    inboundCandidateSource false = CandColl.offerCands ∧
    (calleeSetupSignaling "R1" sampleAnswer ["c2"] freshSession
        storeWithOfferRoom).ops.countP isAppendAnswerCandOp = (["c2"] : List Candidate).length := by
  have h := candidate_relay_routing (fun c pc => Except.ok (pc.addIceCandidate c))
    [] freshSession freshSession freshSession "R0" "R1" sampleOffer sampleAnswer
    [] ["c2"] emptyStore storeWithOfferRoom
  exact ⟨h.1, h.2.1, h.2.2.1, h.2.2.2.1,
    h.2.2.2.2.2.2.2.2.2.1 { offer := some sampleOffer, answer := none }
      sampleOffer (by decide) rfl⟩

/-- C7: a failure to apply one inbound candidate neither aborts the
subscription nor blocks later candidates.  If the engine rejects the
candidate of change `ch` (the `.catch` branch: logged only), the handler's
result on `pre ++ ch :: post` is exactly the result of processing `pre`
and then `post` — the failing record contributes nothing and every record
after it is still processed — and the candidate subscription stays in
whatever state it was. -/
theorem candidate_failure_isolation (f : Candidate → PC → Except String PC)
    (pre post : List DocChange) (ch : DocChange) (sess : Session) (e : String)
    (hty : ch.ty = ChangeType.added)
    (hfail : f ch.data (candidateSnapshotHandler f pre sess).pc = Except.error e) :
    candidateSnapshotHandler f (pre ++ ch :: post) sess
      = candidateSnapshotHandler f post (candidateSnapshotHandler f pre sess) ∧
    (candidateSnapshotHandler f (pre ++ ch :: post) sess).candidateSubActive
      = sess.candidateSubActive := by
  have hsplit : candidateSnapshotHandler f (pre ++ ch :: post) sess
      = candidateSnapshotHandler f post
          (candidateChangeStep f (candidateSnapshotHandler f pre sess) ch) := by
    simp [candidateSnapshotHandler, List.foldl_append]
  have hstep : candidateChangeStep f (candidateSnapshotHandler f pre sess) ch
      = candidateSnapshotHandler f pre sess := by
    simp [candidateChangeStep, hty, ChangeType.isAdded, hfail]
  refine ⟨?_, ?_⟩
  · rw [hsplit, hstep]
  · rw [hsplit, hstep,
      (candidateSnapshotHandler_fields f post (candidateSnapshotHandler f pre sess)).2,
      (candidateSnapshotHandler_fields f pre sess).2]

/-- A concrete fallible engine feed for the witness: rejects the candidate
"bad", accepts every other candidate. -/
def flakyIngest : Candidate → PC → Except String PC :=
  fun c pc =>
    if c = "bad" then Except.error "ingest rejected" else Except.ok (pc.addIceCandidate c)

theorem candidate_failure_isolation_witness :
    candidateSnapshotHandler flakyIngest
        [⟨ChangeType.added, "c1"⟩, ⟨ChangeType.added, "bad"⟩, ⟨ChangeType.added, "c2"⟩]
        freshSession
      = candidateSnapshotHandler flakyIngest [⟨ChangeType.added, "c2"⟩]
          (candidateSnapshotHandler flakyIngest [⟨ChangeType.added, "c1"⟩] freshSession) ∧
    (candidateSnapshotHandler flakyIngest
        [⟨ChangeType.added, "c1"⟩, ⟨ChangeType.added, "bad"⟩, ⟨ChangeType.added, "c2"⟩]
        freshSession).candidateSubActive
      = freshSession.candidateSubActive :=
  candidate_failure_isolation flakyIngest [⟨ChangeType.added, "c1"⟩]
    [⟨ChangeType.added, "c2"⟩] ⟨ChangeType.added, "bad"⟩ freshSession
    "ingest rejected" rfl rfl

/-- C8: in the callee's `setupSignaling`, the Room document is read exactly
once (a single `getDoc`) and never subscribed to (no `subscribeRoomDoc` op
in the trace, and the session's room subscription stays as it was — only
the caller branch installs one); and the one signaling-channel handler the
callee holds, the candidate-collection subscription, never changes the
component state, so a Connected-style status for the callee can only come
from the negotiation engine's own callbacks, never from the signaling
channel. -/
theorem callee_single_fetch_engine_only_connected (rid : String)
    (answerDesc : SessionDesc) (cands : List Candidate) (sess : Session)
    (s : Store) :
    ((calleeSetupSignaling rid answerDesc cands sess s).ops.countP isGetRoomDocOp = 1) ∧
    ((calleeSetupSignaling rid answerDesc cands sess s).ops.countP
        isSubscribeRoomDocOp = 0) ∧
    ((calleeSetupSignaling rid answerDesc cands sess s).sess.roomSubActive
        = sess.roomSubActive) ∧
    (∀ (f : Candidate → PC → Except String PC) (changes : List DocChange),
      (candidateSnapshotHandler f changes
          (calleeSetupSignaling rid answerDesc cands sess s).sess).app
        = (calleeSetupSignaling rid answerDesc cands sess s).sess.app) := by
  refine ⟨?_, ?_, ?_, fun f changes => (candidateSnapshotHandler_fields f changes _).1⟩
  · rcases hsr : s.getRoom rid with _ | d
    · simp [calleeSetupSignaling, hsr, subscribeCandOp, inboundCandidateSource,
        isGetRoomDocOp, List.countP_cons]
    · rcases hoff : d.offer with _ | o
      · simp [calleeSetupSignaling, hsr, hoff, subscribeCandOp, inboundCandidateSource,
          isGetRoomDocOp, List.countP_cons]
      · simp [calleeSetupSignaling, hsr, hoff, subscribeCandOp, inboundCandidateSource,
          outboundCandidateTarget, appendCandOp, isGetRoomDocOp, List.countP_cons,
          Function.comp]
  · rcases hsr : s.getRoom rid with _ | d
    · simp [calleeSetupSignaling, hsr, subscribeCandOp, inboundCandidateSource,
        isSubscribeRoomDocOp, List.countP_cons]
    · rcases hoff : d.offer with _ | o
      · simp [calleeSetupSignaling, hsr, hoff, subscribeCandOp, inboundCandidateSource,
          isSubscribeRoomDocOp, List.countP_cons]
      · simp [calleeSetupSignaling, hsr, hoff, subscribeCandOp, inboundCandidateSource,
          outboundCandidateTarget, appendCandOp, isSubscribeRoomDocOp, List.countP_cons,
          Function.comp]
  · rcases hsr : s.getRoom rid with _ | d
    · simp [calleeSetupSignaling, hsr]
    · rcases hoff : d.offer with _ | o
      · simp [calleeSetupSignaling, hsr, hoff]
      · simp [calleeSetupSignaling, hsr, hoff]
